import Mathlib

/-!
Verification of the fabric-connector command-execution gateway (src/api.py)
against its natural-language specification.

The embedding below translates the gateway's data model and request handlers
into Lean definitions.  External effects are made explicit:

* the child-process layer (`run_command` from proxy.py, absent from the
  sources) is modelled from the spec as a function of an oracle assigning a
  process outcome (stdout, stderr, exit code) to each argument vector;
* the filesystem side of `tempfile.NamedTemporaryFile` / `os.unlink` is
  modelled as explicit state: an allocation counter plus the list of temp
  files currently on disk, with a fresh injectively-named path per allocation;
* each HTTP handler returns an explicit `Response` (success payload, typed
  HTTP error, or an unhandled Python `NameError`) together with the final
  filesystem state and the trace of subprocess invocations it performed.
-/

namespace FabricConnector

/-- Outcome of one child process: captured stdout, captured stderr, exit code. -/
structure ProcOutcome where
  stdout : String
  stderr : String
  exitCode : Int
deriving DecidableEq

/-- Oracle describing the behaviour of the external tools: maps the argument
vector handed to the process spawner to the resulting process outcome. -/
def Oracle : Type := List String → ProcOutcome

/-- Typed failure raised on a non-zero exit (spec: `ExecutionFailure`; in the
Python code a `subprocess.CalledProcessError`): captured stderr, the exit
code, and the command for diagnostics. -/
structure ExecutionFailure where
  stderr : String
  exitCode : Int
  command : List String
deriving DecidableEq

/-- Modelled from the spec: `run_command` (executeProcess) lives in proxy.py,
which is not among the sources; per the spec it spawns the process, and on
exit code 0 returns the captured stdout unmodified, while on a non-zero exit
it fails with an `ExecutionFailure` carrying captured stderr, the exit code
and the command. -/
def run_command (o : Oracle) (args : List String) : Except ExecutionFailure String :=
  let p := o args
  if p.exitCode = 0 then .ok p.stdout
  else .error { stderr := p.stderr, exitCode := p.exitCode, command := args }

/-- Modelled from the spec: the string form `str(e)` of an `ExecutionFailure`
used as the HTTP 500 detail (api.py wraps the caught error with `str(e)`).
It is a function of the failure alone, so a propagated detail is the original
failure's rendering unchanged. -/
def failureStr (e : ExecutionFailure) : String :=
  "Command " ++ String.intercalate " " e.command ++
    " returned non-zero exit status " ++ toString e.exitCode ++ "."

/-- Platform profile resolved once at startup (api.py lines 47-57). -/
structure PlatformProfile where
  fabricPath : String
  ytPath : String
deriving DecidableEq

/-- HOME_DIR computation on win32 (api.py line 52):
`os.path.expanduser("~").replace("Users", "home").replace("C:", "")`. -/
def win32HomeDir (home : String) : String :=
  (home.replace "Users" "home").replace "C:" ""

/-- FABRIC_PATH on win32 (api.py line 53): join with the Windows separator,
then `.replace("\\", "/")`. -/
def win32FabricPath (home : String) : String :=
  (win32HomeDir home ++ "\\.local\\bin\\fabric").replace "\\" "/"

/-- YT_PATH on win32 (api.py line 54). -/
def win32YtPath (home : String) : String :=
  (win32HomeDir home ++ "\\.local\\bin\\yt").replace "\\" "/"

/-- Module-level platform resolution (api.py lines 47-57): `none` means the
process prints "Unsupported operating system" and calls `sys.exit(1)`. -/
def moduleInit (platform home : String) : Option PlatformProfile :=
  if platform = "darwin" then
    some { fabricPath := home ++ "/.local/bin/fabric", ytPath := home ++ "/.local/bin/yt" }
  else if platform = "win32" then
    some { fabricPath := win32FabricPath home, ytPath := win32YtPath home }
  else
    none

/-- Result of starting the process: either it exited during module import, or
it reached `start_api_server` and bound the listener (api.py lines 172-181,
uvicorn on 127.0.0.1:49152). -/
inductive Startup where
  | exited (code : Nat)
  | listening (profile : PlatformProfile) (host : String) (port : Nat)
deriving DecidableEq

/-- Process startup: module import resolves the platform profile (exiting on
an unsupported platform before any server object exists), and only then can
`start_api_server` bind the listener. -/
def startProcess (platform home : String) : Startup :=
  match moduleInit platform home with
  | none => .exited 1
  | some prof => .listening prof "127.0.0.1" 49152

/-- Path of the PowerShell binary used for bridged invocations (api.py). -/
def psPath : String := "C:\\Windows\\System32\\WindowsPowerShell\\v1.0\\powershell.exe"

/-- Shell command string built by the /fabric handler on win32 (api.py line 74):
`f"gc '{temp_file_path}' | wsl -e {FABRIC_PATH} -sp '{request.pattern}' --model '{request.model}'"`. -/
def fabricCmdString (fabricPath pattern model tempPath : String) : String :=
  "gc '" ++ tempPath ++ "' | wsl -e " ++ fabricPath ++ " -sp '" ++ pattern ++
    "' --model '" ++ model ++ "'"

/-- Shell command string built by the /yt handler on win32 (api.py line 146);
note the model value is interpolated with no surrounding quotes at all:
`f"gc '{temp_file_path}' | wsl -e {FABRIC_PATH} -sp '{request.pattern}' --model {request.model}"`. -/
def ytCmdString (fabricPath pattern model tempPath : String) : String :=
  "gc '" ++ tempPath ++ "' | wsl -e " ++ fabricPath ++ " -sp '" ++ pattern ++
    "' --model " ++ model

/-- Embedding of `sanitize_for_shell` (api.py lines 191-192), which wraps
`shlex.quote`: empty strings become two quotes, strings of safe characters
pass through, and anything else is single-quoted with embedded quotes
rewritten to the close-quote/escaped-quote/open-quote sequence. -/
def shlexSafeChar (c : Char) : Bool :=
  c.isAlphanum || c = '_' || c = '@' || c = '%' || c = '+' || c = '=' ||
    c = ':' || c = ',' || c = '.' || c = '/' || c = '-'

/-- Embedding of the replacement `s.replace("'", "'\"'\"'")` inside
shlex.quote, character by character so that it evaluates by kernel reduction. -/
def shlexEscapeList : List Char → List Char
  | [] => []
  | c :: rest =>
    if "'".toList.contains c then "'\"'\"'".toList ++ shlexEscapeList rest
    else c :: shlexEscapeList rest

/-- Embedding of the replacement step of shlex.quote on strings. -/
def shlexEscape (s : String) : String :=
  String.mk (shlexEscapeList s.toList)

/-- Embedding of `shlex.quote` as called by `sanitize_for_shell`. -/
def sanitize_for_shell (s : String) : String :=
  if s = "" then "''"
  else if s.toList.all shlexSafeChar then s
  else "'" ++ shlexEscape s ++ "'"

/-- Modelled filesystem state for the bridged path: the allocation counter
feeding fresh temp-file names, and the temp files currently on disk
(path paired with written content). -/
structure SysState where
  nextTemp : Nat
  files : List (String × String)
deriving DecidableEq

/-- Modelled from the contract of `tempfile.NamedTemporaryFile(delete=False)`:
each call yields a fresh path distinct from every other allocation.  The model
draws paths from an injective naming scheme indexed by the allocation counter. -/
def tempName : Nat → String
  | 0 => "/tmp/fabtmp"
  | n + 1 => tempName n ++ "a"

/-- Outcome of a request handler: a JSON success payload, a typed
`HTTPException` (status plus detail), or an unhandled Python `NameError`
escaping the handler (the `except` clause catches only CalledProcessError). -/
inductive Response where
  | ok (output : String)
  | httpError (status : Nat) (detail : String)
  | nameError (var : String)
deriving DecidableEq

/-- Request body of POST /fabric (api.py class FabricRequest). -/
structure FabricRequest where
  pattern : String
  model : String
  data : String
deriving DecidableEq

/-- Request body of POST /yt (api.py class YTRequest). -/
structure YTRequest where
  pattern : String
  model : String
  url : String
deriving DecidableEq

/-- Argument vector of the native /fabric invocation (api.py line 68). -/
def fabricArgsDarwin (prof : PlatformProfile) (r : FabricRequest) : List String :=
  [prof.fabricPath, "-sp", r.pattern, "--text", r.data, "--model", r.model]

/-- POST /fabric handler (api.py lines 60-81).  Returns the response, the
final filesystem state, and the trace of subprocess argument vectors run.
On win32 with empty data the temp file is never created, so line 74's
f-string reads the unassigned `temp_file_path` and raises a NameError before
any subprocess is spawned; on win32 with non-empty data, `os.unlink` (line 76)
runs only after a successful `run_command`, since a raised
CalledProcessError jumps straight to the `except` clause. -/
def fabric (platform : String) (prof : PlatformProfile) (o : Oracle)
    (r : FabricRequest) (s : SysState) : Response × SysState × List (List String) :=
  if platform = "darwin" then
    let args := fabricArgsDarwin prof r
    match run_command o args with
    | .ok out => (.ok out, s, [args])
    | .error e => (.httpError 500 (failureStr e), s, [args])
  else if platform = "win32" then
    if r.data = "" then
      (.nameError "temp_file_path", s, [])
    else
      let path := tempName s.nextTemp
      let s1 : SysState := ⟨s.nextTemp + 1, s.files ++ [(path, r.data)]⟩
      let args := [psPath, "-Command", fabricCmdString prof.fabricPath r.pattern r.model path]
      match run_command o args with
      | .ok out => (.ok out, ⟨s1.nextTemp, s1.files.filter (fun f => f.1 != path)⟩, [args])
      | .error e => (.httpError 500 (failureStr e), s1, [args])
  else
    (.nameError "output", s, [])

/-- Argument vector of the native transcript fetch (api.py line 138). -/
def ytArgsDarwin (prof : PlatformProfile) (r : YTRequest) : List String :=
  [prof.ytPath, r.url]

/-- Argument vector of the bridged transcript fetch (api.py line 141). -/
def ytArgsWin (prof : PlatformProfile) (r : YTRequest) : List String :=
  ["wsl", "-e", prof.ytPath, r.url]

/-- Argument vector of the native second-stage pattern application
(api.py line 139): the transcript is passed literally via `--text`. -/
def ytFabricArgsDarwin (prof : PlatformProfile) (pattern model text : String) : List String :=
  [prof.fabricPath, "-sp", pattern, "--text", text, "--model", model]

/-- POST /yt handler (api.py lines 130-154): transcript fetch, then pattern
application on the transcript.  On win32 the transcript is written to a fresh
temp file piped into the bridged invocation; an empty (falsy) transcript
skips stage two entirely (`if output:`), and as in /fabric the unlink at
line 148 is skipped when the bridged invocation raises. -/
def yt (platform : String) (prof : PlatformProfile) (o : Oracle)
    (r : YTRequest) (s : SysState) : Response × SysState × List (List String) :=
  if platform = "darwin" then
    let a1 := ytArgsDarwin prof r
    match run_command o a1 with
    | .error e => (.httpError 500 (failureStr e), s, [a1])
    | .ok transcript =>
      let a2 := ytFabricArgsDarwin prof r.pattern r.model transcript
      match run_command o a2 with
      | .ok out => (.ok out, s, [a1, a2])
      | .error e => (.httpError 500 (failureStr e), s, [a1, a2])
  else if platform = "win32" then
    let a1 := ytArgsWin prof r
    match run_command o a1 with
    | .error e => (.httpError 500 (failureStr e), s, [a1])
    | .ok out1 =>
      if out1 = "" then
        (.ok out1, s, [a1])
      else
        let path := tempName s.nextTemp
        let s1 : SysState := ⟨s.nextTemp + 1, s.files ++ [(path, out1)]⟩
        let a2 := [psPath, "-Command", ytCmdString prof.fabricPath r.pattern r.model path]
        match run_command o a2 with
        | .ok out2 => (.ok out2, ⟨s1.nextTemp, s1.files.filter (fun f => f.1 != path)⟩, [a1, a2])
        | .error e => (.httpError 500 (failureStr e), s1, [a1, a2])
  else
    (.nameError "output", s, [])

/-- One entry of the heterogeneous list returned by the model-listing tool:
either a raw Python string (a section header) or a record, carrying its
"name" value when the key is present. -/
inductive Entry where
  | pystr (s : String)
  | record (name : Option String)
deriving DecidableEq

/-- Record shape produced by the model-listing transform: `{"name": item['name']}`. -/
structure ModelRec where
  name : String
deriving DecidableEq

/-- Section-header names excluded by the filter (api.py lines 95-97). -/
def headerNames : List String :=
  ["GPT Models:", "Local Models:", "Claude Models:", "Google Models:"]

/-- Helper for Python's `in` on strings: does the character list start with
the needle. -/
def startsWith : List Char → List Char → Bool
  | [], _ => true
  | _ :: _, [] => false
  | a :: as, b :: bs => (a = b) && startsWith as bs

/-- Helper for Python's `in` on strings: does the haystack contain the needle
as a contiguous run. -/
def hasSub (needle : List Char) : List Char → Bool
  | [] => needle.isEmpty
  | c :: rest => startsWith needle (c :: rest) || hasSub needle rest

/-- Python's `'name' in item` when `item` is a string: substring containment. -/
def strHasNameKey (s : String) : Bool :=
  hasSub "name".toList s.toList

/-- Helper for Python's `str.strip()`: drop leading whitespace characters. -/
def dropWhileWs : List Char → List Char
  | [] => []
  | c :: rest => if c.isWhitespace then dropWhileWs rest else c :: rest

/-- Embedding of Python's `str.strip()`: whitespace removed from both ends. -/
def pyStrip (s : String) : String :=
  String.mk (List.reverse (dropWhileWs (List.reverse (dropWhileWs s.toList))))

/-- The list comprehension of GET /models (api.py lines 93-98), evaluated in
Python's left-to-right order.  A string entry passes the `'name' in item`
substring test only to crash at `item['name']` (TypeError: string indices
must be integers), modelled as the error case; a record without the key is
skipped; a record whose name is a section header or blank after strip is
skipped; any other record contributes `{"name": item['name']}` in order. -/
def get_models_filter : List Entry → Except String (List ModelRec)
  | [] => .ok []
  | .pystr s :: rest =>
    if strHasNameKey s then .error "TypeError: string indices must be integers"
    else get_models_filter rest
  | .record none :: rest => get_models_filter rest
  | .record (some n) :: rest =>
    if headerNames.contains n then get_models_filter rest
    else if pyStrip n = "" then get_models_filter rest
    else
      match get_models_filter rest with
      | .ok ms => .ok ({ name := n } :: ms)
      | .error e => .error e

/-- Shape of `execute_fabric_command`'s return value as the handlers see it:
list-shaped (passing `isinstance(result, list)`) or anything else, carrying
its `str(result)` rendering. -/
inductive FabricResult where
  | list (entries : List Entry)
  | other (repr : String)
deriving DecidableEq

/-- Response of GET /models. -/
inductive ModelsResponse where
  | ok (models : List ModelRec)
  | httpError (status : Nat) (detail : String)
  | pyError (msg : String)
deriving DecidableEq

/-- GET /models handler (api.py lines 83-108), parameterised by the result of
`execute_fabric_command("--listmodels")`. -/
def get_models (platform : String) (result : FabricResult) : ModelsResponse :=
  if platform = "darwin" ∨ platform = "win32" then
    match result with
    | .list entries =>
      match get_models_filter entries with
      | .ok ms => .ok ms
      | .error msg => .pyError msg
    | .other _ => .httpError 500 "Unexpected result format from execute_fabric_command"
  else
    .httpError 500 "Unsupported platform"

/-- Response of GET /patterns. -/
inductive PatternsResponse where
  | ok (patterns : List Entry)
  | httpError (status : Nat) (detail : String)
  | pyError (msg : String)
deriving DecidableEq

/-- GET /patterns handler (api.py lines 156-168), parameterised by the result
of `execute_fabric_command("--list")`: list-shaped results pass through
unchanged, anything else raises HTTP 500 with `str(result)` as the detail.
On a platform outside darwin/win32 neither branch assigns `result`, so the
`isinstance` test raises a NameError. -/
def get_patterns (platform : String) (result : FabricResult) : PatternsResponse :=
  if platform = "darwin" ∨ platform = "win32" then
    match result with
    | .list entries => .ok entries
    | .other r => .httpError 500 r
  else
    .pyError "NameError: result"

/-- Predicate on one entry for the general model-listing theorem: string
entries must not contain "name" as a substring (true of every section header
the tool emits), since such an entry would make the Python comprehension
crash at `item['name']`. -/
def entryStrSafe : Entry → Bool
  | .pystr s => !strHasNameKey s
  | .record _ => true

/-- Declarative keep-function for the model-listing transform: a record whose
name is present, not a section header, and not blank survives; everything
else is dropped. -/
def keepModel : Entry → Option ModelRec
  | .record (some n) =>
    if headerNames.contains n then none
    else if pyStrip n = "" then none
    else some { name := n }
  | _ => none

/-- Concrete heterogeneous input from the spec's testable property:
`["GPT Models:", {name:"gpt-4"}, {name:""}, {name:"claude-3"}, "Claude Models:"]`. -/
def specModelsExample : List Entry :=
  [.pystr "GPT Models:", .record (some "gpt-4"), .record (some ""),
   .record (some "claude-3"), .pystr "Claude Models:"]

/-- Concrete platform profile used by witnesses. -/
def prof0 : PlatformProfile :=
  { fabricPath := "/home/u/.local/bin/fabric", ytPath := "/home/u/.local/bin/yt" }

/-- Concrete /fabric request used by witnesses. -/
def req0 : FabricRequest := { pattern := "summarize", model := "gpt-4", data := "hello" }

/-- Concrete /yt request used by witnesses. -/
def ytreq0 : YTRequest := { pattern := "summarize", model := "gpt-4", url := "http://v" }

/-- Test oracle: every process invocation fails with exit code 1 and stderr "boom". -/
def oracleFailAll : Oracle := fun _ => { stdout := "", stderr := "boom", exitCode := 1 }

/-- Test oracle: every process invocation succeeds with the given stdout. -/
def oracleOkAll (out : String) : Oracle :=
  fun _ => { stdout := out, stderr := "", exitCode := 0 }

/-- Test oracle: the designated first argument vector succeeds with the given
stdout, every other invocation fails with exit code 2. -/
def oracleFirstOk (first : List String) (out : String) : Oracle :=
  fun args =>
    if args = first then { stdout := out, stderr := "", exitCode := 0 }
    else { stdout := "", stderr := "stage2 boom", exitCode := 2 }

/-! Helper lemmas shared by the claim theorems. -/

theorem run_command_eq_zero (o : Oracle) (args : List String)
    (h : (o args).exitCode = 0) : run_command o args = .ok (o args).stdout := by
  simp [run_command, h]

theorem run_command_ne_zero (o : Oracle) (args : List String)
    (h : (o args).exitCode ≠ 0) :
    run_command o args =
      .error { stderr := (o args).stderr, exitCode := (o args).exitCode, command := args } := by
  simp [run_command, h]

theorem tempName_length (n : Nat) : (tempName n).length = 11 + n := by
  induction n with
  | zero => rfl
  | succ n ih =>
    have h1 : "a".length = 1 := rfl
    simp [tempName, String.length_append, ih, h1]
    omega

theorem tempName_ne (n m : Nat) (h : n ≠ m) : tempName n ≠ tempName m := by
  intro he
  apply h
  have hl := congrArg String.length he
  rw [tempName_length, tempName_length] at hl
  omega

/-- C4: run_command (executeProcess) returns exactly the captured stdout iff
the process exits 0; on any non-zero exit it fails with an ExecutionFailure
whose exit code is the process's actual exit code and whose stderr is the
captured error stream (and whose command is the invoked argument vector). -/
theorem c4_run_command_contract (o : Oracle) (args : List String) :
    (run_command o args = .ok (o args).stdout ↔ (o args).exitCode = 0)
    ∧ ((o args).exitCode ≠ 0 →
        run_command o args =
          .error { stderr := (o args).stderr, exitCode := (o args).exitCode, command := args })
    ∧ (∀ out, run_command o args = .ok out → out = (o args).stdout ∧ (o args).exitCode = 0) := by
  refine ⟨⟨fun hok => ?_, fun h => run_command_eq_zero o args h⟩,
    fun h => run_command_ne_zero o args h, fun out hout => ?_⟩
  · by_contra h
    rw [run_command_ne_zero o args h] at hok
    exact Except.noConfusion hok
  · by_cases h : (o args).exitCode = 0
    · rw [run_command_eq_zero o args h] at hout
      exact ⟨(Except.ok.injEq _ _ ▸ hout).symm, h⟩
    · rw [run_command_ne_zero o args h] at hout
      exact Except.noConfusion hout

/-- Witness for C4 at a concrete failing oracle: an invocation that exits 2
with stderr "stage2 boom" yields exactly that ExecutionFailure. -/
theorem c4_run_command_contract_witness :
    run_command (oracleFirstOk ["a"] "out") ["b"] =
      .error { stderr := "stage2 boom", exitCode := 2, command := ["b"] } :=
  (c4_run_command_contract (oracleFirstOk ["a"] "out") ["b"]).2.1 (by decide)

/-- C6: on any platform outside the supported set (not darwin, not win32) the
process exits with code 1 during module import, before any listener is bound
(the Startup value is exited, never listening). -/
theorem c6_unsupported_platform_exits (platform home : String)
    (h1 : platform ≠ "darwin") (h2 : platform ≠ "win32") :
    startProcess platform home = .exited 1 := by
  simp [startProcess, moduleInit, h1, h2]

/-- Witness for C6: starting on "linux" exits with code 1. -/
theorem c6_unsupported_platform_exits_witness :
    startProcess "linux" "/home/u" = .exited 1 :=
  c6_unsupported_platform_exits "linux" "/home/u" (by decide) (by decide)

/-- C9: a win32 POST /fabric request with empty data never assigns
temp_file_path, so building the command string raises an unhandled NameError
before any subprocess is spawned; the handler does not reach the typed
HTTP 500 path, and the filesystem state is untouched. -/
theorem c9_empty_data_name_error (prof : PlatformProfile) (o : Oracle)
    (pattern model : String) (s : SysState) :
    fabric "win32" prof o { pattern := pattern, model := model, data := "" } s =
      (.nameError "temp_file_path", s, []) := by
  simp [fabric]

/-- C10: a win32 POST /yt request whose transcript fetch succeeds with empty
(falsy) stdout silently skips the second-stage pattern application and
returns output "" as a success, with only the transcript invocation traced. -/
theorem c10_empty_transcript_skips_stage2 (prof : PlatformProfile) (o : Oracle)
    (r : YTRequest) (s : SysState)
    (h0 : (o (ytArgsWin prof r)).exitCode = 0)
    (h1 : (o (ytArgsWin prof r)).stdout = "") :
    yt "win32" prof o r s = (.ok "", s, [ytArgsWin prof r]) := by
  simp [yt, run_command_eq_zero _ _ h0, h1]

/-- Witness for C10: with an oracle returning empty stdout on every call, the
win32 /yt handler returns success with empty output and one traced call. -/
theorem c10_empty_transcript_skips_stage2_witness :
    yt "win32" prof0 (oracleOkAll "") ytreq0 ⟨0, []⟩ =
      (.ok "", ⟨0, []⟩, [ytArgsWin prof0 ytreq0]) :=
  c10_empty_transcript_skips_stage2 prof0 (oracleOkAll "") ytreq0 ⟨0, []⟩
    (by decide) (by decide)

/-- C1: the bridged command strings do not pass interpolated values through
any quoting function.  A pattern containing a single quote lands verbatim
inside the manually written quote pair (breaking out of it), the /yt model
value is concatenated with no quotes at all, and the guaranteed-safe
sanitize_for_shell, which would have rewritten the embedded quote, is never
what the handlers apply: its output on the same value differs from the text
that actually reaches the command string. -/
theorem c1_interpolated_values_unescaped :
    fabricCmdString "/home/u/.local/bin/fabric" "a'b" "gpt-4" "/tmp/fabtmp" =
      "gc '/tmp/fabtmp' | wsl -e /home/u/.local/bin/fabric -sp 'a'b' --model 'gpt-4'"
    ∧ ytCmdString "/home/u/.local/bin/fabric" "summarize" "gpt-4; whoami" "/tmp/fabtmp" =
      "gc '/tmp/fabtmp' | wsl -e /home/u/.local/bin/fabric -sp 'summarize' --model gpt-4; whoami"
    ∧ sanitize_for_shell "a'b" ≠ "'a'b'" := by
  refine ⟨rfl, rfl, by decide⟩
/-- C2: on the bridged path the temp file is deleted only when the inner
invocation succeeds; when it fails, the handler raises before os.unlink and
the temp file is orphaned.  Evaluated at a failing oracle: /fabric leaves
the file (with the request data) on disk while returning the typed 500, /yt
likewise leaves the transcript file when stage two fails; the success path,
by contrast, removes it. -/
theorem c2_temp_file_orphaned_on_failure :
    (fabric "win32" prof0 oracleFailAll req0 ⟨0, []⟩).2.1.files = [(tempName 0, "hello")]
    ∧ (fabric "win32" prof0 oracleFailAll req0 ⟨0, []⟩).1 =
        .httpError 500 (failureStr
          { stderr := "boom", exitCode := 1,
            command := [psPath, "-Command",
              fabricCmdString prof0.fabricPath req0.pattern req0.model (tempName 0)] })
    ∧ (yt "win32" prof0 (oracleFirstOk (ytArgsWin prof0 ytreq0) "transcript") ytreq0
        ⟨0, []⟩).2.1.files = [(tempName 0, "transcript")]
    ∧ (fabric "win32" prof0 (oracleOkAll "done") req0 ⟨0, []⟩).2.1.files = [] := by
  exact ⟨rfl, rfl, rfl, rfl⟩

/-- C3: in the composite /yt flow the two stages are strictly sequential: if
the transcript fetch exits non-zero (on either platform) the handler returns
HTTP 500 carrying exactly that first failure and the trace shows the second
invocation never ran; when the fetch succeeds on the native platform the
trace shows exactly two calls with the first stage's entire stdout passed
literally as the second stage's --text argument; on the bridged platform the
temp file written for stage two holds the first stage's stdout verbatim
(observable on the orphan path). -/
theorem c3_composite_flow_sequencing (prof : PlatformProfile) (o : Oracle)
    (r : YTRequest) (s : SysState) :
    ((o (ytArgsDarwin prof r)).exitCode ≠ 0 →
      yt "darwin" prof o r s =
        (.httpError 500 (failureStr
            { stderr := (o (ytArgsDarwin prof r)).stderr,
              exitCode := (o (ytArgsDarwin prof r)).exitCode,
              command := ytArgsDarwin prof r }),
          s, [ytArgsDarwin prof r]))
    ∧ ((o (ytArgsWin prof r)).exitCode ≠ 0 →
      yt "win32" prof o r s =
        (.httpError 500 (failureStr
            { stderr := (o (ytArgsWin prof r)).stderr,
              exitCode := (o (ytArgsWin prof r)).exitCode,
              command := ytArgsWin prof r }),
          s, [ytArgsWin prof r]))
    ∧ ((o (ytArgsDarwin prof r)).exitCode = 0 →
      (yt "darwin" prof o r s).2.2 =
        [ytArgsDarwin prof r,
         ytFabricArgsDarwin prof r.pattern r.model (o (ytArgsDarwin prof r)).stdout])
    ∧ ((o (ytArgsWin prof r)).exitCode = 0 →
       (o (ytArgsWin prof r)).stdout ≠ "" →
       (o [psPath, "-Command",
          ytCmdString prof.fabricPath r.pattern r.model (tempName s.nextTemp)]).exitCode ≠ 0 →
      (yt "win32" prof o r s).2.1.files =
        s.files ++ [(tempName s.nextTemp, (o (ytArgsWin prof r)).stdout)]) := by
  refine ⟨fun h1 => ?_, fun h1 => ?_, fun h1 => ?_, fun h1 h2 h3 => ?_⟩
  · simp [yt, run_command_ne_zero _ _ h1]
  · simp [yt, run_command_ne_zero _ _ h1]
  · simp [yt, run_command_eq_zero _ _ h1]
    split <;> simp
  · simp [yt, run_command_eq_zero _ _ h1, h2, run_command_ne_zero _ _ h3]

/-- Witness for C3: with an always-failing oracle the /yt handler on darwin
returns the first stage's failure and runs exactly one subprocess. -/
theorem c3_composite_flow_sequencing_witness :
    yt "darwin" prof0 oracleFailAll ytreq0 ⟨0, []⟩ =
      (.httpError 500 (failureStr
          { stderr := "boom", exitCode := 1, command := ytArgsDarwin prof0 ytreq0 }),
        ⟨0, []⟩, [ytArgsDarwin prof0 ytreq0]) :=
  (c3_composite_flow_sequencing prof0 oracleFailAll ytreq0 ⟨0, []⟩).1 (by decide)

/-- C7: on a supported platform GET /patterns passes a list-shaped tool
result through unchanged, and raises HTTP 500 whose detail is the result's
string rendering for any non-list-shaped result. -/
theorem c7_patterns_passthrough_or_format_error (platform : String)
    (result : FabricResult) (h : platform = "darwin" ∨ platform = "win32") :
    (∀ entries, result = .list entries → get_patterns platform result = .ok entries)
    ∧ (∀ r, result = .other r → get_patterns platform result = .httpError 500 r) := by
  constructor
  · intro entries he
    subst he
    simp [get_patterns, h]
  · intro r he
    subst he
    simp [get_patterns, h]

/-- Witness for C7: on darwin a two-element list passes through unchanged,
applied at a concrete list-shaped result. -/
theorem c7_patterns_passthrough_or_format_error_witness :
    get_patterns "darwin" (.list [.pystr "p1", .pystr "p2"]) =
      .ok [.pystr "p1", .pystr "p2"] :=
  (c7_patterns_passthrough_or_format_error "darwin" (.list [.pystr "p1", .pystr "p2"])
    (Or.inl rfl)).1 [.pystr "p1", .pystr "p2"] rfl

/-- C8: temp-file paths are fresh per request: a bridged /fabric request with
non-empty data allocates the path indexed by the current counter and leaves
the counter incremented (whether the inner invocation succeeds or fails), so
a second bridged request allocates the successor index, whose path differs;
a bridged /yt request that writes a transcript file advances the counter the
same way. -/
theorem c8_concurrent_temp_paths_distinct (prof : PlatformProfile) (o : Oracle)
    (r1 : FabricRequest) (s : SysState) (h1 : r1.data ≠ "") :
    ((fabric "win32" prof o r1 s).2.1.nextTemp = s.nextTemp + 1)
    ∧ tempName s.nextTemp ≠ tempName ((fabric "win32" prof o r1 s).2.1.nextTemp)
    ∧ (∀ rY : YTRequest, (o (ytArgsWin prof rY)).exitCode = 0 →
        (o (ytArgsWin prof rY)).stdout ≠ "" →
        (yt "win32" prof o rY s).2.1.nextTemp = s.nextTemp + 1) := by
  have hfab : (fabric "win32" prof o r1 s).2.1.nextTemp = s.nextTemp + 1 := by
    simp [fabric, h1]
    split <;> simp
  refine ⟨hfab, ?_, fun rY hy0 hy1 => ?_⟩
  · rw [hfab]
    exact tempName_ne _ _ (by omega)
  · simp [yt, run_command_eq_zero _ _ hy0, hy1]
    split <;> simp

/-- Witness for C8: two sequential bridged /fabric requests from the initial
state use distinct temp paths (index 0 versus index 1). -/
theorem c8_concurrent_temp_paths_distinct_witness :
    tempName (0 : Nat) ≠
      tempName ((fabric "win32" prof0 (oracleOkAll "done") req0 ⟨0, []⟩).2.1.nextTemp) :=
  (c8_concurrent_temp_paths_distinct prof0 (oracleOkAll "done") req0 ⟨0, []⟩
    (by decide)).2.1

/-- C5: on any heterogeneous entry list whose string entries do not contain
"name" as a substring (true of all section headers), the GET /models
transform keeps exactly the records whose name is present, not a section
header, and not blank, in the original order; in particular the spec's
concrete input yields exactly the gpt-4 and claude-3 records. -/
theorem c5_model_listing_transform (l : List Entry) (h : l.all entryStrSafe = true) :
    get_models_filter l = .ok (l.filterMap keepModel)
    ∧ get_models "darwin" (.list specModelsExample) =
        .ok [{ name := "gpt-4" }, { name := "claude-3" }] := by
  refine ⟨?_, by decide⟩
  induction l with
  | nil => rfl
  | cons e rest ih =>
    rw [List.all_cons, Bool.and_eq_true] at h
    obtain ⟨he, hrest⟩ := h
    cases e with
    | pystr s =>
      have hs : strHasNameKey s = false := by
        simpa [entryStrSafe] using he
      simp [get_models_filter, hs, keepModel, ih hrest]
    | record name =>
      cases name with
      | none => simp [get_models_filter, keepModel, ih hrest]
      | some n =>
        by_cases hh : n ∈ headerNames
        · simp [get_models_filter, hh, keepModel, ih hrest]
        · by_cases ht : pyStrip n = ""
          · simp [get_models_filter, hh, ht, keepModel, ih hrest]
          · simp [get_models_filter, hh, ht, keepModel, ih hrest]

/-- Witness for C5 at the spec's concrete input: the filter keeps exactly the
gpt-4 and claude-3 records, dropping both headers and the blank name. -/
theorem c5_model_listing_transform_witness :
    get_models_filter specModelsExample =
      .ok (specModelsExample.filterMap keepModel) :=
  (c5_model_listing_transform specModelsExample (by decide)).1

end FabricConnector
